import Mathlib

/-!
Verification of the origin-fallback request router of `cdk-nuxt`.

The repository ships two Lambda@Edge handlers that intercept the
origin-response phase of a CloudFront distribution:

* the probe-based variant (`src/unnamed/part_002`, `exports.handler`),
  which on a 404 issues an S3 `GetObjectCommand` for a synthesized
  index key and redirects to it when the call succeeds;
* the inference-based variant (the inline handler embedded in
  `createEdgeLambda` of `src/lib/client.ts`), which on a 404 synthesizes
  a redirect target from the request path shape alone.

Both are embedded below as pure Lean functions.  The S3 call of the
probe-based variant is modelled by passing its outcome in as an
`Except S3Error Unit` value: `Except.ok ()` is a successful
`GetObjectCommand` (the object exists), `Except.error e` is a thrown
error.  The handler result type `Except S3Error Response` records
whether the handler itself propagates an error to the platform or
returns a response.
-/

/-- One element of a CloudFront header value list, `{ key, value }`.
The `value` field is an `Option` because the inference-based handler
can place the JavaScript value `undefined` there (an uninitialized
`redirectUrl` variable). -/
structure HeaderEntry where
  key : String
  value : Option String
deriving DecidableEq, Repr

/-- CloudFront headers object: a mapping from header name to a list of
entries, modelled as an association list preserving insertion order. -/
def Headers := List (String × List HeaderEntry)
deriving DecidableEq, Repr

/-- The CloudFront request record, restricted to the only field the two
handlers inspect. -/
structure Request where
  uri : String
deriving DecidableEq, Repr

/-- The CloudFront response record as the handlers read and build it.
`body` is optional: origin responses may lack it and the redirect
objects built by the handlers do not set it. -/
structure Response where
  status : String
  statusDescription : String
  headers : Headers
  body : Option String
deriving DecidableEq, Repr

/-- Errors an S3 `GetObjectCommand` may throw.  The probe-based handler
never inspects the thrown value, so the constructors only serve to
distinguish a definitive not-found signal from other failures in the
theorems below. -/
inductive S3Error where
  | noSuchKey
  | accessDenied
  | throttling
  | network (msg : String)
deriving DecidableEq, Repr

/-- JavaScript `s.endsWith(post)`: `post` is a suffix of `s`.  Modelled
over the character lists so that concrete instances reduce in the kernel. -/
def jsEndsWith (s : String) (post : String) : Bool :=
  post.data.isSuffixOf s.data

/-- JavaScript `s.includes(c)` for a one-character argument `c`: some
character of `s` equals `c`. -/
def jsIncludes (s : String) (c : Char) : Bool :=
  s.data.contains c

/-- `bucketParams.Key` of the probe-based handler (the Path Normalizer):
`request.uri.endsWith('/') ? request.uri + 'index.html'
: request.uri + '/index.html'`. -/
def bucketKey (uri : String) : String :=
  if jsEndsWith uri "/" then uri ++ "index.html" else uri ++ "/index.html"

/-- The probe-based variant, `exports.handler` of `src/unnamed/part_002`.
`probe` is the outcome of `s3Client.send(new GetObjectCommand bucketParams)`;
the `try { ... } catch (err) { return response; }` of the source is the
`match` on it.  `host` is `event.Records[0].cf.config.distributionDomainName`. -/
def handlerProbe (host : String) (request : Request) (response : Response)
    (probe : Except S3Error Unit) : Except S3Error Response :=
  if response.status = "404" then
    let key := bucketKey request.uri
    match probe with
    | Except.ok _ =>
        Except.ok
          { status := "302", statusDescription := "Found",
            headers := [("location",
              [{ key := "Location", value := some ("https://" ++ host ++ key) }])],
            body := none }
    | Except.error _ =>
        Except.ok response
  else if response.status = "403" then
    Except.ok
      { status := "404", statusDescription := "Not Found",
        headers := response.headers, body := some "<h1>404 Not Found</h1>" }
  else
    Except.ok response

/-- The inference-based variant: the inline `exports.handler` embedded in
`createEdgeLambda` of `src/lib/client.ts`.  `callback(null, x)` is a plain
return of `x`.  In the 404 branch the source assigns `redirectUrl` only
when the URI ends with `/` or contains no dot, then unconditionally calls
back with a 302 whose `Location` entry carries `redirectUrl` (possibly
`undefined`, modelled as `none`). -/
def handlerInfer (host : String) (request : Request) (response : Response) :
    Response :=
  if response.status = "404" then
    let redirectUrl : Option String :=
      if jsEndsWith request.uri "/" then
        some ("https://" ++ host ++ request.uri ++ "index.html")
      else if !(jsIncludes request.uri '.') then
        some ("https://" ++ host ++ request.uri ++ "/index.html")
      else
        none
    { status := "302", statusDescription := "Found",
      headers := [("Location", [{ key := "Location", value := redirectUrl }])],
      body := none }
  else if response.status = "403" then
    { status := "404", statusDescription := "Not Found",
      headers := response.headers, body := some "<h1>404 Not Found</h1>" }
  else
    response

/-- A sample origin 404 response used by concrete witnesses. -/
def sample404 : Response :=
  { status := "404", statusDescription := "Not Found",
    headers := [("content-type", [{ key := "Content-Type", value := some "text/html" }])],
    body := some "origin 404 page" }

/-- A sample non-404, non-403 origin response used by concrete witnesses. -/
def sample200 : Response :=
  { status := "200", statusDescription := "OK",
    headers := [("content-type", [{ key := "Content-Type", value := some "text/html" }])],
    body := some "hello" }

/-- A sample origin 403 response used by concrete witnesses. -/
def sample403 : Response :=
  { status := "403", statusDescription := "Forbidden",
    headers := [("x-cache", [{ key := "X-Cache", value := some "Error from cloudfront" }])],
    body := none }

/-- Equality of handler results is decidable, so that concrete runs of the
probe-based handler can be checked by evaluation. -/
instance : DecidableEq (Except S3Error Response) := fun a b =>
  match a, b with
  | Except.ok x, Except.ok y =>
      if h : x = y then isTrue (by rw [h]) else isFalse (by simp [h])
  | Except.error x, Except.error y =>
      if h : x = y then isTrue (by rw [h]) else isFalse (by simp [h])
  | Except.ok _, Except.error _ => isFalse (by simp)
  | Except.error _, Except.ok _ => isFalse (by simp)

/-- Claim C1 counterexample: the probe-based handler receives a
permission-denied error from the probe (a failure that is not a definitive
not-found signal) and still returns a Passthrough of the original 404
response; the error does not propagate out of the resolver.  The source
`catch (err)` block ignores the error kind entirely. -/
theorem c1_counterexample :
    handlerProbe "example.com" { uri := "/about/" } sample404
      (Except.error S3Error.accessDenied) = Except.ok sample404 := by
  decide

/-- Claim C1 as amended: in the probe-based variant every probe failure,
definitive not-found or otherwise, yields Passthrough of the original
404 response; no probe error propagates out of the resolver. -/
theorem c1_amended (host : String) (req : Request) (resp : Response)
    (e : S3Error) (h : resp.status = "404") :
    handlerProbe host req resp (Except.error e) = Except.ok resp := by
  simp [handlerProbe, h]

/-- Witness for the amended claim C1 at a concrete throttling error. -/
theorem c1_amended_witness :
    handlerProbe "example.com" { uri := "/news" } sample404
      (Except.error S3Error.throttling) = Except.ok sample404 :=
  c1_amended "example.com" { uri := "/news" } sample404 S3Error.throttling rfl

/-- Claim C4: in both variants, a 403 origin response maps to a response
with status 404, statusDescription Not Found, body exactly
<h1>404 Not Found</h1>, and the headers of the input response. -/
theorem c4_force_not_found (host : String) (req : Request) (resp : Response)
    (pr : Except S3Error Unit) (h : resp.status = "403") :
    handlerProbe host req resp pr =
      Except.ok
        { status := "404", statusDescription := "Not Found",
          headers := resp.headers, body := some "<h1>404 Not Found</h1>" } ∧
    handlerInfer host req resp =
      { status := "404", statusDescription := "Not Found",
        headers := resp.headers, body := some "<h1>404 Not Found</h1>" } := by
  constructor <;> simp [handlerProbe, handlerInfer, h]

/-- Witness for claim C4 at a concrete 403 response. -/
theorem c4_force_not_found_witness :
    handlerProbe "example.com" { uri := "/" } sample403 (Except.ok ()) =
      Except.ok
        { status := "404", statusDescription := "Not Found",
          headers := sample403.headers, body := some "<h1>404 Not Found</h1>" } ∧
    handlerInfer "example.com" { uri := "/" } sample403 =
      { status := "404", statusDescription := "Not Found",
        headers := sample403.headers, body := some "<h1>404 Not Found</h1>" } :=
  c4_force_not_found "example.com" { uri := "/" } sample403 (Except.ok ()) rfl

/-- Claim C5: in both variants, a response whose status is neither 404 nor
403 is returned unchanged. -/
theorem c5_passthrough_other (host : String) (req : Request) (resp : Response)
    (pr : Except S3Error Unit) (h4 : resp.status ≠ "404") (h3 : resp.status ≠ "403") :
    handlerProbe host req resp pr = Except.ok resp ∧
    handlerInfer host req resp = resp := by
  constructor <;> simp [handlerProbe, handlerInfer, h4, h3]

/-- Witness for claim C5 at a concrete 200 response. -/
theorem c5_passthrough_other_witness :
    handlerProbe "example.com" { uri := "/a" } sample200 (Except.ok ()) =
      Except.ok sample200 ∧
    handlerInfer "example.com" { uri := "/a" } sample200 = sample200 :=
  c5_passthrough_other "example.com" { uri := "/a" } sample200 (Except.ok ())
    (by decide) (by decide)

/-- Claim C6: in the probe-based variant, on a 404 the candidate key is the
Path Normalizer of the request URI; a successful probe yields a 302 to
https:// followed by the host and the candidate, a not-found probe result
yields the original response; and both /about/ and /about normalize to
/about/index.html. -/
theorem c6_probe_resolution (host : String) (req : Request) (resp : Response)
    (h : resp.status = "404") :
    handlerProbe host req resp (Except.ok ()) =
      Except.ok
        { status := "302", statusDescription := "Found",
          headers := [("location",
            [{ key := "Location",
               value := some ("https://" ++ host ++ bucketKey req.uri) }])],
          body := none } ∧
    handlerProbe host req resp (Except.error S3Error.noSuchKey) =
      Except.ok resp ∧
    bucketKey "/about/" = "/about/index.html" ∧
    bucketKey "/about" = "/about/index.html" :=
  ⟨by simp [handlerProbe, h], by simp [handlerProbe, h], by decide, by decide⟩

/-- Witness for claim C6 at a concrete 404 response for /about/. -/
theorem c6_probe_resolution_witness :
    handlerProbe "example.com" { uri := "/about/" } sample404 (Except.ok ()) =
      Except.ok
        { status := "302", statusDescription := "Found",
          headers := [("location",
            [{ key := "Location",
               value := some ("https://" ++ "example.com" ++ bucketKey "/about/") }])],
          body := none } ∧
    handlerProbe "example.com" { uri := "/about/" } sample404
      (Except.error S3Error.noSuchKey) = Except.ok sample404 ∧
    bucketKey "/about/" = "/about/index.html" ∧
    bucketKey "/about" = "/about/index.html" :=
  c6_probe_resolution "example.com" { uri := "/about/" } sample404 rfl

/-- Claim C7: in the inference-based variant, on a 404 whose URI ends with
a slash the output is a 302 to https://host + uri + index.html, and on a
404 whose URI neither ends with a slash nor contains a dot the output is a
302 to https://host + uri + /index.html.  The handler takes no probe
argument: no storage lookup occurs. -/
theorem c7_infer_redirect (host : String) (req : Request) (resp : Response)
    (h : resp.status = "404") :
    (jsEndsWith req.uri "/" = true →
      handlerInfer host req resp =
        { status := "302", statusDescription := "Found",
          headers := [("Location",
            [{ key := "Location",
               value := some ("https://" ++ host ++ req.uri ++ "index.html") }])],
          body := none }) ∧
    (jsEndsWith req.uri "/" = false → jsIncludes req.uri '.' = false →
      handlerInfer host req resp =
        { status := "302", statusDescription := "Found",
          headers := [("Location",
            [{ key := "Location",
               value := some ("https://" ++ host ++ req.uri ++ "/index.html") }])],
          body := none }) := by
  constructor
  · intro hs
    simp [handlerInfer, h, hs]
  · intro hs hd
    simp [handlerInfer, h, hs, hd]

/-- Witness for claim C7 at the URIs /blog/post/ and /blog/post. -/
theorem c7_infer_redirect_witness :
    handlerInfer "example.com" { uri := "/blog/post/" } sample404 =
      { status := "302", statusDescription := "Found",
        headers := [("Location",
          [{ key := "Location",
             value := some ("https://" ++ "example.com" ++ "/blog/post/" ++ "index.html") }])],
        body := none } ∧
    handlerInfer "example.com" { uri := "/blog/post" } sample404 =
      { status := "302", statusDescription := "Found",
        headers := [("Location",
          [{ key := "Location",
             value := some ("https://" ++ "example.com" ++ "/blog/post" ++ "/index.html") }])],
        body := none } :=
  ⟨(c7_infer_redirect "example.com" { uri := "/blog/post/" } sample404 rfl).1
      (by decide),
   (c7_infer_redirect "example.com" { uri := "/blog/post" } sample404 rfl).2
      (by decide) (by decide)⟩

/-- Claim C2, evaluation at the failing input: the inference-based handler
on a 404 for /assets/app.js (dot-containing URI, no trailing slash) does
not return the original response; it returns a 302 whose Location entry
carries an undefined value, because the source assigns redirectUrl only
under the two guards yet issues the 302 callback unconditionally. -/
theorem c2_code_eval :
    handlerInfer "example.com" { uri := "/assets/app.js" } sample404 =
      { status := "302", statusDescription := "Found",
        headers := [("Location", [{ key := "Location", value := none }])],
        body := none } ∧
    handlerInfer "example.com" { uri := "/assets/app.js" } sample404 ≠
      sample404 := by
  constructor <;> decide

/-- Claim C3 counterexample: the inference-based variant registers its
redirect Location entry under the headers mapping name Location, not under
the lowercase name location the claim states for both variants; shown on a
genuine redirect for /blog/post/ together with the two names differing. -/
theorem c3_counterexample :
    (handlerInfer "example.com" { uri := "/blog/post/" } sample404).headers =
      [("Location",
        [{ key := "Location",
           value := some "https://example.com/blog/post/index.html" }])] ∧
    ("Location" : String) ≠ "location" := by
  constructor <;> decide

/-- Claim C3 as amended: every redirect decision is a response with status
302, statusDescription Found, no body, and a single location header entry
whose key field is Location; the probe-based variant registers it under
the lowercase mapping name location with the absolute URL as value, while
the inference-based variant registers it under the mapping name Location,
whose value is the absolute URL when the URI ends with a slash or contains
no dot and is undefined otherwise. -/
theorem c3_amended (host : String) (req : Request) (resp : Response)
    (h : resp.status = "404") :
    handlerProbe host req resp (Except.ok ()) =
      Except.ok
        { status := "302", statusDescription := "Found",
          headers := [("location",
            [{ key := "Location",
               value := some ("https://" ++ host ++ bucketKey req.uri) }])],
          body := none } ∧
    (∃ v : Option String,
      handlerInfer host req resp =
        { status := "302", statusDescription := "Found",
          headers := [("Location", [{ key := "Location", value := v }])],
          body := none } ∧
      (jsEndsWith req.uri "/" = true →
        v = some ("https://" ++ host ++ req.uri ++ "index.html")) ∧
      (jsEndsWith req.uri "/" = false → jsIncludes req.uri '.' = false →
        v = some ("https://" ++ host ++ req.uri ++ "/index.html")) ∧
      (jsEndsWith req.uri "/" = false → jsIncludes req.uri '.' = true →
        v = none)) := by
  constructor
  · simp [handlerProbe, h]
  · refine ⟨if jsEndsWith req.uri "/" then
        some ("https://" ++ host ++ req.uri ++ "index.html")
      else if !(jsIncludes req.uri '.') then
        some ("https://" ++ host ++ req.uri ++ "/index.html")
      else none, ?_, ?_, ?_, ?_⟩
    · simp [handlerInfer, h]
    · intro hs
      simp [hs]
    · intro hs hd
      simp [hs, hd]
    · intro hs hd
      simp [hs, hd]

/-- Witness for the amended claim C3 at a concrete 404 for /docs. -/
theorem c3_amended_witness :
    handlerProbe "example.com" { uri := "/docs" } sample404 (Except.ok ()) =
      Except.ok
        { status := "302", statusDescription := "Found",
          headers := [("location",
            [{ key := "Location",
               value := some ("https://" ++ "example.com" ++ bucketKey "/docs") }])],
          body := none } ∧
    (∃ v : Option String,
      handlerInfer "example.com" { uri := "/docs" } sample404 =
        { status := "302", statusDescription := "Found",
          headers := [("Location", [{ key := "Location", value := v }])],
          body := none } ∧
      (jsEndsWith "/docs" "/" = true →
        v = some ("https://" ++ "example.com" ++ "/docs" ++ "index.html")) ∧
      (jsEndsWith "/docs" "/" = false → jsIncludes "/docs" '.' = false →
        v = some ("https://" ++ "example.com" ++ "/docs" ++ "/index.html")) ∧
      (jsEndsWith "/docs" "/" = false → jsIncludes "/docs" '.' = true →
        v = none)) :=
  c3_amended "example.com" { uri := "/docs" } sample404 rfl

/-- Claim C8: the resolver never propagates an error to the platform: for
every input and every probe outcome the probe-based handler yields an ok
result, and when the probe throws on a 404 the handler returns the
original, unmodified response.  The inference-based handler is a total
function into Response and has no error channel at all. -/
theorem c8_never_throws (host : String) (req : Request) (resp : Response)
    (pr : Except S3Error Unit) :
    (handlerProbe host req resp pr).isOk = true ∧
    (resp.status = "404" → ∀ e : S3Error,
      handlerProbe host req resp (Except.error e) = Except.ok resp) := by
  constructor
  · unfold handlerProbe
    split
    · cases pr <;> rfl
    · split <;> rfl
  · intro h e
    simp [handlerProbe, h]

/-- Witness for claim C8 at a concrete 404 and a network error. -/
theorem c8_never_throws_witness :
    (handlerProbe "example.com" { uri := "/a" } sample404 (Except.ok ())).isOk = true ∧
    handlerProbe "example.com" { uri := "/a" } sample404
      (Except.error (S3Error.network "timeout")) = Except.ok sample404 :=
  ⟨(c8_never_throws "example.com" { uri := "/a" } sample404 (Except.ok ())).1,
   (c8_never_throws "example.com" { uri := "/a" } sample404 (Except.ok ())).2
      rfl (S3Error.network "timeout")⟩

/-- Claim C9: idempotence on Passthrough: if a variant returns its input
response unchanged, then running the same variant again on the same
request paired with that output (the probe returning the same result)
yields the same output again. -/
theorem c9_idempotent_passthrough (host : String) (req : Request)
    (resp r : Response) (pr : Except S3Error Unit) :
    (handlerProbe host req resp pr = Except.ok r → r = resp →
      handlerProbe host req r pr = Except.ok r) ∧
    (handlerInfer host req resp = resp →
      handlerInfer host req (handlerInfer host req resp) =
        handlerInfer host req resp) := by
  constructor
  · intro h1 h2
    subst h2
    exact h1
  · intro h1
    rw [h1]
    exact h1

/-- Witness for claim C9 at a concrete 200 passthrough. -/
theorem c9_idempotent_passthrough_witness :
    handlerProbe "example.com" { uri := "/a" } sample200 (Except.ok ()) =
      Except.ok sample200 ∧
    handlerInfer "example.com" { uri := "/a" }
        (handlerInfer "example.com" { uri := "/a" } sample200) =
      handlerInfer "example.com" { uri := "/a" } sample200 :=
  ⟨(c9_idempotent_passthrough "example.com" { uri := "/a" } sample200 sample200
      (Except.ok ())).1 (by decide) rfl,
   (c9_idempotent_passthrough "example.com" { uri := "/a" } sample200 sample200
      (Except.ok ())).2 (by decide)⟩

/-- Claim C10: every 302 redirect built by either variant carries exactly
one header mapping (the single Location entry), no body, and the fixed
statusDescription Found: the headers, body and statusDescription of the
original 404 response are discarded, whatever they were. -/
theorem c10_redirect_frame (host : String) (req : Request) (resp : Response)
    (h : resp.status = "404") :
    (∃ v : Option String,
      handlerProbe host req resp (Except.ok ()) =
        Except.ok
          { status := "302", statusDescription := "Found",
            headers := [("location", [{ key := "Location", value := v }])],
            body := none }) ∧
    (∃ v : Option String,
      handlerInfer host req resp =
        { status := "302", statusDescription := "Found",
          headers := [("Location", [{ key := "Location", value := v }])],
          body := none }) := by
  constructor
  · refine ⟨some ("https://" ++ host ++ bucketKey req.uri), ?_⟩
    simp [handlerProbe, h]
  · refine ⟨if jsEndsWith req.uri "/" then
        some ("https://" ++ host ++ req.uri ++ "index.html")
      else if !(jsIncludes req.uri '.') then
        some ("https://" ++ host ++ req.uri ++ "/index.html")
      else none, ?_⟩
    simp [handlerInfer, h]

/-- Witness for claim C10 at a concrete 404 carrying extra headers and a
body, all discarded by both redirects. -/
theorem c10_redirect_frame_witness :
    (∃ v : Option String,
      handlerProbe "example.com" { uri := "/pages/" } sample404 (Except.ok ()) =
        Except.ok
          { status := "302", statusDescription := "Found",
            headers := [("location", [{ key := "Location", value := v }])],
            body := none }) ∧
    (∃ v : Option String,
      handlerInfer "example.com" { uri := "/pages/" } sample404 =
        { status := "302", statusDescription := "Found",
          headers := [("Location", [{ key := "Location", value := v }])],
          body := none }) :=
  c10_redirect_frame "example.com" { uri := "/pages/" } sample404 rfl
